import Mathlib

/-!
Verification of the `ia-stream` stream library: a shallow embedding of
`src/stream.ts` (`StreamBase` / `Substream`), `src/memory.ts`
(`MemoryStream`) and `src/file.ts` (`FileStream`), followed by theorems
settling the specification claims.

Conventions of the embedding:
* JavaScript numbers that the code uses for positions and lengths are
  modelled as `Int` (they can go negative in this code).
* Buffers are `List Nat` of byte values.
* A method that can `throw` returns `Except JSError`; a rejected promise
  is an `.error`.
* Mutation is modelled by returning the updated state.
-/

namespace IaStream

/-- The errors thrown by the library.  The code throws plain `Error`s with
messages; each constructor stands for one family of messages. -/
inductive JSError where
  /-- "This stream is not open." -/
  | notOpen
  /-- "This stream cannot be read from." -/
  | cannotRead
  /-- "This stream cannot be written to." -/
  | cannotWrite
  /-- "This stream cannot be seeked." -/
  | cannotSeek
  /-- "Could not read N bytes at position P" (exact-mode read failure). -/
  | shortRead
  /-- "Could not seek to position P." (thrown by `readFrom` / `writeAt`). -/
  | seekFailed (position : Int)
  /-- "Not enough space in buffer." -/
  | noSpace
  deriving Repr, DecidableEq

abbrev JSResult (α : Type) := Except JSError α

deriving instance DecidableEq for Except

/-- JavaScript `x || y` where `x : number | null` and `y : number`:
`null` (and `undefined`) and `0` are falsy. -/
def jsOrD (x : Option Int) (d : Int) : Int :=
  match x with
  | none => d
  | some v => if v = 0 then d else v

/-- JavaScript `x || null` applied to an optional number (`start || null`
in the `Substream` constructor): `undefined` and `0` collapse to `null`. -/
def jsOrNull (x : Option Int) : Option Int :=
  match x with
  | none => none
  | some v => if v = 0 then none else some v

/-- Clamp a JavaScript slice index into `[0, len]`: a negative index
counts from the end of the buffer. -/
def jsIndexClamp (i : Int) (len : Nat) : Nat :=
  if i < 0 then ((len : Int) + i).toNat else min i.toNat len

/-- `Buffer.prototype.slice(start, end)`: indices are clamped into
`[0, length]` (negative ones counting from the end) and the result is
empty when `start >= end` after clamping. -/
def jsSlice (l : List Nat) (s e : Int) : List Nat :=
  let s' := jsIndexClamp s l.length
  let e' := jsIndexClamp e l.length
  (l.drop s').take (e' - s')

/-- `source.copy(target, targetStart)`: copies as many bytes of `source`
as fit into `target` starting at `targetStart`, leaving the rest of
`target` unchanged; returns the number of bytes copied. -/
def jsBufferCopy (source target : List Nat) (targetStart : Nat) : Nat × List Nat :=
  let n := min source.length (target.length - targetStart)
  (n, target.take targetStart ++ source.take n ++ target.drop (targetStart + n))

/-- State of a `MemoryStream` (src/memory.ts lines 37-66): `_buffer` is
`null` once the stream is closed. -/
structure MemoryStream where
  _buffer : Option (List Nat)
  _position : Int
  _fixedSize : Bool
  _isOpen : Bool
  _isReadOnly : Bool
  deriving Repr, DecidableEq

/-- `new MemoryStream({ data, readonly, fixedSize })`. -/
def MemoryStream.ofData (data : List Nat) (readonly fixedSize : Bool) : MemoryStream :=
  { _buffer := some data, _position := 0, _fixedSize := fixedSize,
    _isOpen := true, _isReadOnly := readonly }

/-- `new MemoryStream({ length, fixedSize })`: a zero-filled buffer. -/
def MemoryStream.ofLength (length : Int) (fixedSize : Bool) : MemoryStream :=
  { _buffer := some (List.replicate length.toNat 0), _position := 0,
    _fixedSize := fixedSize, _isOpen := true, _isReadOnly := false }

/-- `get length`: `this._buffer!.byteLength`.  (On a closed stream the
code would dereference `null`; every operation below checks `isOpen`
before touching the buffer, so the default `[]` is never observable
through them.) -/
def MemoryStream.length (s : MemoryStream) : Int := (s._buffer.getD []).length

/-- `get position`. -/
def MemoryStream.position (s : MemoryStream) : Int := s._position

/-- `get isOpen`. -/
def MemoryStream.isOpen (s : MemoryStream) : Bool := s._isOpen

/-- `get canRead`: `return this.isOpen`. -/
def MemoryStream.canRead (s : MemoryStream) : Bool := s.isOpen

/-- `get canSeek`: `return this.canRead`. -/
def MemoryStream.canSeek (s : MemoryStream) : Bool := s.canRead

/-- `get canWrite`: `return this.isOpen && !this._isReadOnly`. -/
def MemoryStream.canWrite (s : MemoryStream) : Bool := s.isOpen && !s._isReadOnly

/-- `MemoryStream.seek` (lines 80-90): reports `false` (without mutating)
when `position < 0 || position >= this.length`. -/
def MemoryStream.seek (s : MemoryStream) (position : Int) : JSResult (Bool × MemoryStream) :=
  if ¬ s.isOpen then .error .notOpen
  else if position < 0 ∨ position ≥ s.length then .ok (false, s)
  else .ok (true, { s with _position := position })

/-- `MemoryStream.read` (lines 92-108).  Note two faithful oddities of the
source: the exact-mode guard is `position + length <= this.length` (line
97), and the cursor advances by the *requested* `length` (line 105), not
by the number of bytes in the returned slice. -/
def MemoryStream.read (s : MemoryStream) (length : Int) (exact : Bool) :
    JSResult (List Nat × MemoryStream) :=
  if ¬ s.isOpen then .error .notOpen
  else if exact ∧ s.position + length ≤ s.length then .error .shortRead
  else
    let slice := jsSlice (s._buffer.getD []) s.position (min s.length (s.position + length))
    .ok (slice, { s with _position := s._position + length })

/-- `MemoryStream.readFrom` (lines 110-116): seek (hard error when it
reports failure) then read — the same behaviour as the `StreamBase`
default. -/
def MemoryStream.readFrom (s : MemoryStream) (position length : Int) (exact : Bool) :
    JSResult (List Nat × MemoryStream) :=
  match s.seek position with
  | .error e => .error e
  | .ok (ok, s') =>
      if ok then s'.read length exact else .error (.seekFailed position)

/-- `MemoryStream.resize` (lines 138-152): allocate a zero-filled buffer
of the new length and copy the old contents into it. -/
def MemoryStream.resize (s : MemoryStream) (length : Int) : JSResult (Bool × MemoryStream) :=
  if ¬ s.isOpen then .error .notOpen
  else if ¬ s.canWrite then .error .cannotWrite
  else if s._fixedSize then .ok (false, s)
  else
    let newBuf := List.replicate length.toNat 0
    let (_, newBuf) := jsBufferCopy (s._buffer.getD []) newBuf 0
    .ok (true, { s with _buffer := some newBuf })

/-- `MemoryStream.write` (lines 118-136): grow the buffer via `resize`
when the write ends past the current length (hard error instead when
`fixedSize`), then `data.copy(buffer, position)`.  (`copy` with a
negative `targetStart` would throw in JS; that path is never taken by the
claims, and `Int.toNat` clamps it here.) -/
def MemoryStream.write (s : MemoryStream) (data : List Nat) : JSResult (Int × MemoryStream) :=
  if ¬ s.isOpen then .error .notOpen
  else if ¬ s.canWrite then .error .cannotWrite
  else
    let grown : JSResult MemoryStream :=
      if s.position + (data.length : Int) > s.length then
        if s._fixedSize then .error .noSpace
        else
          match s.resize (s.position + (data.length : Int)) with
          | .error e => .error e
          | .ok (_, s') => .ok s'
      else .ok s
    match grown with
    | .error e => .error e
    | .ok s' =>
        let (bytesWritten, buf) := jsBufferCopy data (s'._buffer.getD []) s'._position.toNat
        .ok ((bytesWritten : Int),
          { s' with _buffer := some buf, _position := s'._position + bytesWritten })

/-- `MemoryStream.close` (lines 154-158): drops the buffer and clears the
open flag.  It does **not** call `super.close()`, so no `"close"` event is
emitted (see the cascade model below). -/
def MemoryStream.close (s : MemoryStream) : MemoryStream :=
  { s with _buffer := none, _isOpen := false }

/-- `MemoryStream.substream` (lines 160-175): slices the buffer when
`from` is a number (`buf.slice(from, to)`, `to` possibly `undefined`) and
returns a **new read-only `MemoryStream`** over it — not a `Substream`. -/
def MemoryStream.substream (s : MemoryStream) (fromPos toPos : Option Int) :
    JSResult MemoryStream :=
  if ¬ s.isOpen then .error .notOpen
  else
    let buf := s._buffer.getD []
    let buf :=
      match fromPos with
      | some f => jsSlice buf f (toPos.getD (buf.length : Int))
      | none => buf
    .ok (MemoryStream.ofData buf true false)

/-- State of a `FileStream` (src/file.ts lines 15-39) together with the
contents of the underlying file: `_file = none` models a closed handle.
`_flags` holds the characters of the `flags` string (the code only ever
asks `flags.includes(c)` for single characters). -/
structure FileStream where
  _file : Option (List Nat)
  _position : Int
  _range : Int × Int
  _flags : List Char
  _isSubstream : Bool
  deriving Repr, DecidableEq

/-- `FileStream.open(path, { flags })` (lines 41-53): the private
constructor receives `range = [0, stats.size]` (which passes its
validation) and sets `_position = range[0] = 0`. -/
def FileStream.openFile (contents : List Nat) (flags : List Char) : FileStream :=
  { _file := some contents, _position := 0, _range := (0, (contents.length : Int)),
    _flags := flags, _isSubstream := false }

/-- `get length`: `this._range[1] - this._range[0]`. -/
def FileStream.length (s : FileStream) : Int := s._range.2 - s._range.1

/-- `get position`: `this._position - this._range[0]`. -/
def FileStream.position (s : FileStream) : Int := s._position - s._range.1

/-- `get isOpen`: `this._file !== null`. -/
def FileStream.isOpen (s : FileStream) : Bool := s._file.isSome

/-- `get canRead` (string-flags branch): requires `r`, or `w` and `+`. -/
def FileStream.canRead (s : FileStream) : Bool :=
  s.isOpen && (s._flags.contains 'r' || (s._flags.contains 'w' && s._flags.contains '+'))

/-- `get canSeek` (string-flags branch): requires `r` or `w`. -/
def FileStream.canSeek (s : FileStream) : Bool :=
  s.isOpen && (s._flags.contains 'r' || s._flags.contains 'w')

/-- `get canWrite` (string-flags branch): never for a file substream;
otherwise requires `w`, `a`, or `r` and `+`. -/
def FileStream.canWrite (s : FileStream) : Bool :=
  s.isOpen && !s._isSubstream &&
    (s._flags.contains 'w' || s._flags.contains 'a' ||
      (s._flags.contains 'r' && s._flags.contains '+'))

/-- `FileStream.seek` (lines 113-125): boolean failure outside
`[0, length]`, otherwise `_position = position + range[0]`. -/
def FileStream.seek (s : FileStream) (position : Int) : JSResult (Bool × FileStream) :=
  if ¬ s.isOpen then .error .notOpen
  else if ¬ s.canSeek then .error .cannotSeek
  else if position < 0 ∨ position > s.length then .ok (false, s)
  else .ok (true, { s with _position := position + s._range.1 })

/-- Number of bytes `fd.read(buf, 0, length, position)` delivers from a
file with the given contents. -/
def filePreadCount (file : List Nat) (length position : Int) : Nat :=
  min length.toNat (file.length - position.toNat)

/-- `fd.read(buf, 0, length, position)` where `buf = Buffer.alloc(length)`:
the buffer stays zero-filled past the bytes actually read. -/
def filePread (file : List Nat) (length position : Int) : Nat × List Nat :=
  let bytesRead := filePreadCount file length position
  (bytesRead,
    ((file.drop position.toNat).take bytesRead) ++ List.replicate (length.toNat - bytesRead) 0)

/-- `FileStream.read` (lines 127-147): exact-mode guard
`position + length > this.length`, a positional read into a zero-filled
buffer of the full requested size, a second exact-mode guard on
`bytesRead`, then `_position += bytesRead`.  Note that the **whole**
allocated buffer is returned, even when `bytesRead < length`. -/
def FileStream.read (s : FileStream) (length : Int) (exact : Bool) :
    JSResult (List Nat × FileStream) :=
  if ¬ s.isOpen then .error .notOpen
  else if ¬ s.canRead then .error .cannotRead
  else if exact ∧ s.position + length > s.length then .error .shortRead
  else
    let (bytesRead, buf) := filePread (s._file.getD []) length s._position
    if exact ∧ (bytesRead : Int) ≠ length then .error .shortRead
    else .ok (buf, { s with _position := s._position + bytesRead })

/-- `fd.write(data, 0, data.length, position)`: a positional write,
zero-padding the gap when `position` is past the end of the file. -/
def filePwrite (file data : List Nat) (position : Nat) : List Nat :=
  file.take position ++ List.replicate (position - file.length) 0 ++ data ++
    file.drop (position + data.length)

/-- `FileStream.write` (lines 153-166): positional write at `_position`,
then `_position += bytesWritten` and
`_range[1] = Math.max(_position, _range[1])`. -/
def FileStream.write (s : FileStream) (data : List Nat) : JSResult (Int × FileStream) :=
  if ¬ s.isOpen then .error .notOpen
  else if ¬ s.canWrite then .error .cannotWrite
  else
    let file' := filePwrite (s._file.getD []) data s._position.toNat
    let p' := s._position + (data.length : Int)
    .ok ((data.length : Int),
      { s with _file := some file', _position := p', _range := (s._range.1, max p' s._range.2) })

/-- `FileStream.resize` (lines 168-179): `ftruncate` pads with zeros or
truncates the file contents; `_range` is left unchanged. -/
def FileStream.resize (s : FileStream) (length : Int) : JSResult (Bool × FileStream) :=
  if ¬ s.isOpen then .error .notOpen
  else if ¬ s.canWrite then .error .cannotWrite
  else if length = s.length then .ok (true, s)
  else
    let file := s._file.getD []
    .ok (true, { s with _file := some (file.take length.toNat ++
      List.replicate (length.toNat - file.length) 0) })

/-- `FileStream.close` (lines 181-190): releases the handle.  This one
**does** call `super.close()`, so the `"close"` event is emitted (see the
cascade model below). -/
def FileStream.close (s : FileStream) : FileStream := { s with _file := none }

/-- The private fields of a `Substream` (src/stream.ts lines 205-210):
`_position` is kept in the source's coordinate space, `_range` stores
`[start || null, end || null]`. -/
structure SubstreamState where
  _position : Int
  _range : Option Int × Option Int
  _isOpen : Bool
  deriving Repr, DecidableEq

/-- A stream object of this library as the claims exercise it: a backend
(`MemoryStream` or `FileStream`) or a `Substream` together with its
`_source`. -/
inductive StreamObj where
  | mem : MemoryStream → StreamObj
  | file : FileStream → StreamObj
  | sub : SubstreamState → StreamObj → StreamObj
  deriving Repr, DecidableEq

/-- `new Substream(source, start, end)` (lines 212-219): `_position`
starts at its field initializer `0` (it is **not** set to `start`),
`_isOpen` copies `source.isOpen`, and `_range = [start || null, end || null]`.
The subscription to the source's `"close"` event is modelled separately
(see `SubTree` below). -/
def mkSubstream (source : StreamObj) (start endv : Option Int) : StreamObj :=
  .sub { _position := 0, _range := (jsOrNull start, jsOrNull endv),
         _isOpen :=
           match source with
           | .mem s => s.isOpen
           | .file s => s.isOpen
           | .sub d _ => d._isOpen }
    source

/-- `get isOpen` of any stream object. -/
def StreamObj.isOpen : StreamObj → Bool
  | .mem s => s.isOpen
  | .file s => s.isOpen
  | .sub d _ => d._isOpen

/-- `get canRead`: a `Substream` forwards to its source (line 238). -/
def StreamObj.canRead : StreamObj → Bool
  | .mem s => s.canRead
  | .file s => s.canRead
  | .sub _ src => src.canRead

/-- `get canWrite`: a `Substream` forwards to its source (line 236). -/
def StreamObj.canWrite : StreamObj → Bool
  | .mem s => s.canWrite
  | .file s => s.canWrite
  | .sub _ src => src.canWrite

/-- `get canSeek`: a `Substream` forwards to its source (line 240). -/
def StreamObj.canSeek : StreamObj → Bool
  | .mem s => s.canSeek
  | .file s => s.canSeek
  | .sub _ src => src.canSeek

/-- `get length`: for a `Substream` (lines 229-234),
`(this._range[1] || this._source.length) - (this._range[0] || 0)`. -/
def StreamObj.length : StreamObj → Int
  | .mem s => s.length
  | .file s => s.length
  | .sub d src => jsOrD d._range.2 src.length - jsOrD d._range.1 0

/-- `get position`: for a `Substream` (lines 221-227),
`this._position - this._range[0]` when `_range[0] !== null`, else
`this._position`. -/
def StreamObj.position : StreamObj → Int
  | .mem s => s.position
  | .file s => s.position
  | .sub d _ =>
      match d._range.1 with
      | some st => d._position - st
      | none => d._position

/-- `seek`: dispatches to the backend's own `seek`; `Substream.seek`
(lines 244-250) reports `false` when the *source* cannot seek and
otherwise sets `_position = position + (this._range[0] || 0)` — with no
open-check and no bounds check. -/
def StreamObj.seek : StreamObj → Int → JSResult (Bool × StreamObj)
  | .mem s, p => (s.seek p).map (fun r => (r.1, .mem r.2))
  | .file s, p => (s.seek p).map (fun r => (r.1, .file r.2))
  | .sub d src, p =>
      if src.canSeek then
        .ok (true, .sub { d with _position := p + jsOrD d._range.1 0 } src)
      else .ok (false, .sub d src)

/-- `readFrom`: `MemoryStream` has its own (identical) override; for
`FileStream` the `StreamBase` default runs — `seek(position)` (hard error
when it reports failure) then `read`.  For a `Substream` the default
together with `Substream.seek` and `Substream.read` (lines 244-255)
amounts to: fail `seekFailed` when the source cannot seek, otherwise
delegate `source.readFrom(position + (range[0] || 0), length, exact)`,
recording the moved cursor in `_position`. -/
def StreamObj.readFrom : StreamObj → Int → Int → Bool → JSResult (List Nat × StreamObj)
  | .mem s, p, len, e => (s.readFrom p len e).map (fun r => (r.1, .mem r.2))
  | .file s, p, len, e =>
      match s.seek p with
      | .error err => .error err
      | .ok (ok, s') =>
          if ok then (s'.read len e).map (fun r => (r.1, .file r.2))
          else .error (.seekFailed p)
  | .sub d src, p, len, e =>
      if src.canSeek then
        (StreamObj.readFrom src (p + jsOrD d._range.1 0) len e).map
          (fun r => (r.1, .sub { d with _position := p + jsOrD d._range.1 0 } r.2))
      else .error (.seekFailed p)

/-- `read`: `Substream.read` (lines 252-255) is
`this._source.readFrom(this._position, length, exact)` — the substream's
own `_position` is left untouched. -/
def StreamObj.read (o : StreamObj) (len : Int) (e : Bool) : JSResult (List Nat × StreamObj) :=
  match o with
  | .mem s => (s.read len e).map (fun r => (r.1, .mem r.2))
  | .file s => (s.read len e).map (fun r => (r.1, .file r.2))
  | .sub d src => (StreamObj.readFrom src d._position len e).map (fun r => (r.1, .sub d r.2))

/-- `writeAt`: the `StreamBase` default (`seek` then `write`) for the
backends — `MemoryStream` does not override it; for a `Substream` the
default together with `Substream.seek`/`Substream.write` delegates
`source.writeAt(position + (range[0] || 0), data)`. -/
def StreamObj.writeAt : StreamObj → Int → List Nat → JSResult (Int × StreamObj)
  | .mem s, p, data =>
      match s.seek p with
      | .error err => .error err
      | .ok (ok, s') =>
          if ok then (s'.write data).map (fun r => (r.1, .mem r.2))
          else .error (.seekFailed p)
  | .file s, p, data =>
      match s.seek p with
      | .error err => .error err
      | .ok (ok, s') =>
          if ok then (s'.write data).map (fun r => (r.1, .file r.2))
          else .error (.seekFailed p)
  | .sub d src, p, data =>
      if src.canSeek then
        (StreamObj.writeAt src (p + jsOrD d._range.1 0) data).map
          (fun r => (r.1, .sub { d with _position := p + jsOrD d._range.1 0 } r.2))
      else .error (.seekFailed p)

/-- `write`: `Substream.write` (lines 257-260) is
`this._source.writeAt(this._position, data)` — again without touching the
substream's own `_position`. -/
def StreamObj.write (o : StreamObj) (data : List Nat) : JSResult (Int × StreamObj) :=
  match o with
  | .mem s => (s.write data).map (fun r => (r.1, .mem r.2))
  | .file s => (s.write data).map (fun r => (r.1, .file r.2))
  | .sub d src => (StreamObj.writeAt src d._position data).map (fun r => (r.1, .sub d r.2))

/-- `resize`: `Substream.resize` (lines 262-272) computes
`end = (this._range[0] || 0) + length`; when `end <= this._source.length`
it stores `_range[1] = end` and reports `true`, otherwise it reports
`false` without mutating.  The source is never touched. -/
def StreamObj.resize : StreamObj → Int → JSResult (Bool × StreamObj)
  | .mem s, len => (s.resize len).map (fun r => (r.1, .mem r.2))
  | .file s, len => (s.resize len).map (fun r => (r.1, .file r.2))
  | .sub d src, len =>
      let e := jsOrD d._range.1 0 + len
      if e ≤ src.length then .ok (true, .sub { d with _range := (d._range.1, some e) } src)
      else .ok (false, .sub d src)

/-- `close` on the object itself: `Substream.close` (lines 274-277) only
clears its own `_isOpen` flag — the source is untouched and no `"close"`
event is emitted. -/
def StreamObj.close : StreamObj → StreamObj
  | .mem s => .mem s.close
  | .file s => .file s.close
  | .sub d src => .sub { d with _isOpen := false } src

/-- `substream(from, to)`: `StreamBase.substream` (lines 150-153) builds
`new Substream(this, from, to)`; `MemoryStream` overrides it (see
`MemoryStream.substream`). -/
def StreamObj.substream (o : StreamObj) (fromPos toPos : Option Int) : JSResult StreamObj :=
  match o with
  | .mem s => (s.substream fromPos toPos).map .mem
  | .file s => .ok (mkSubstream (.file s) fromPos toPos)
  | .sub d src => .ok (mkSubstream (.sub d src) fromPos toPos)

/-- The source of a `Substream`, and its cursor — projections used by the
theorems below. -/
def sourcePositionOf : StreamObj → Option Int
  | .sub _ src => some src.position
  | _ => none

/-!
## Close-event wiring

Each `Substream` subscribes to its source's `"close"` event with
`() => this.close()` (line 218).  `StreamBase.close` emits `"close"`
(lines 145-148); `FileStream.close` calls `super.close()` and therefore
emits, while `MemoryStream.close` does not, and `Substream.close`
overrides `close` without emitting at all.  The tree of open-flags below
records, for one backend, the substreams built on it (and, recursively,
on those). -/

/-- A substream node in the dependency tree: its `_isOpen` flag and the
substreams built on it. -/
inductive SubTree where
  | node : Bool → List SubTree → SubTree
  deriving Repr

/-- What the source's `"close"` event does to a subscribed substream:
`Substream.close` clears the flag; since it never emits `"close"`, the
substreams built on *it* are not notified. -/
def closeOnSourceClose : SubTree → SubTree
  | .node _ cs => .node false cs

/-- A backend stream together with the substreams built (directly or
transitively) on it.  `emitsClose` is `true` when the backend's `close`
runs `StreamBase.close`'s `this.emit("close")` — `FileStream` and
`NodeStream` call `super.close()`, `MemoryStream.close` does not. -/
structure BackendWorld where
  backendOpen : Bool
  emitsClose : Bool
  subs : List SubTree

/-- Closing the backend: its own state is reset; the `"close"` event (when
emitted) runs `Substream.close` on each **directly subscribed** substream. -/
def BackendWorld.close (w : BackendWorld) : BackendWorld :=
  { w with backendOpen := false,
           subs := if w.emitsClose then w.subs.map closeOnSourceClose else w.subs }

/-- `close()` called on the i-th direct substream: `Substream.close` only
clears that substream's own flag. -/
def closeNth : List SubTree → Nat → List SubTree
  | [], _ => []
  | t :: ts, 0 => closeOnSourceClose t :: ts
  | t :: ts, n + 1 => t :: closeNth ts n

/-- `close()` on one direct substream of the backend: the backend itself
is not touched. -/
def BackendWorld.closeSub (w : BackendWorld) (i : Nat) : BackendWorld :=
  { w with subs := closeNth w.subs i }

/-!
## Concrete instances used by the claim theorems
-/

/-- `new MemoryStream({ data: Buffer.from("hello") })`. -/
def helloMem : MemoryStream := MemoryStream.ofData [104, 101, 108, 108, 111] false false

/-- `FileStream.open` on a 5-byte file containing "hello", flags `r+`. -/
def helloFile : FileStream := FileStream.openFile [104, 101, 108, 108, 111] ['r', '+']

/-- `helloFile` after a successful `seek(3)`. -/
def helloFileAt3 : FileStream := { helloFile with _position := 3 }

/-- `helloFile.substream(2, 4)` — a `Substream` via `StreamBase.substream`. -/
def helloSub24 : StreamObj := mkSubstream (.file helloFile) (some 2) (some 4)

/-- `helloFile.substream()` — an unbounded `Substream` over the file. -/
def helloSubAll : StreamObj := mkSubstream (.file helloFile) none none

/-- A fresh `SubstreamState` as the `Substream` constructor produces it
for an open source and no explicit bounds. -/
def subD0 : SubstreamState := { _position := 0, _range := (none, none), _isOpen := true }

/-- `FileStream.open` on a 100-byte file whose byte at offset `i` is `i`,
flags `r+` — the backend of the nested-substream scenario. -/
def backend100 : FileStream := FileStream.openFile (List.range 100) ['r', '+']

/-- `backend.substream(10, 50)` on the 100-byte backend. -/
def sub10_50 : StreamObj := mkSubstream (.file backend100) (some 10) (some 50)

/-- `backend.substream(10, 50)` then `.substream(5, 20)` — per the spec
this view must cover the absolute range `[15, 30)` of the backend. -/
def nested5_20 : StreamObj := mkSubstream sub10_50 (some 5) (some 20)

/-- The nested substream after `seek(p)`. -/
def nested5_20At (p : Int) : StreamObj :=
  .sub { _position := p + 5, _range := (some 5, some 20), _isOpen := true } sub10_50

/-- A `FileStream` backend (whose `close` emits `"close"`) carrying one
substream that itself carries one substream: `s1 = B.substream()`,
`s2 = s1.substream()`. -/
def fileChainWorld : BackendWorld :=
  { backendOpen := true, emitsClose := true, subs := [.node true [.node true []]] }

/-- A `MemoryStream` backend (whose `close` does not emit) carrying one
dependent substream. -/
def memChainWorld : BackendWorld :=
  { backendOpen := true, emitsClose := false, subs := [.node true []] }

/-- A backend carrying two sibling substreams. -/
def siblingWorld : BackendWorld :=
  { backendOpen := true, emitsClose := true, subs := [.node true [], .node true []] }

/-- A `SubstreamState` with range `[2, 4)`, as `substream(2, 4)` creates
it over an open source. -/
def subD24 : SubstreamState := { _position := 0, _range := (some 2, some 4), _isOpen := true }

end IaStream


namespace IaStream

/-!
## Helper lemmas
-/

/-- Re-wrapping the stream state inside a result does not change the
projected bytes. -/
theorem map_fst_wrap (x : JSResult (List Nat × StreamObj)) (g : StreamObj → StreamObj) :
    (x.map (fun r => (r.1, g r.2))).map (fun r => r.1) = x.map (fun r => r.1) := by
  cases x <;> rfl

/-- The bytes a `Substream` reads are the bytes its source's `readFrom`
delivers at the substream's stored cursor. -/
theorem sub_read_bytes (d : SubstreamState) (src : StreamObj) (n : Int) (e : Bool) :
    ((StreamObj.sub d src).read n e).map (fun r => r.1) =
      (StreamObj.readFrom src d._position n e).map (fun r => r.1) := by
  simp only [StreamObj.read]
  exact map_fst_wrap ..

/-- `readFrom` on a `Substream` whose source can seek delegates to the
source at the translated position. -/
theorem sub_readFrom_bytes (d : SubstreamState) (src : StreamObj) (q n : Int) (e : Bool)
    (h : src.canSeek = true) :
    (StreamObj.readFrom (.sub d src) q n e).map (fun r => r.1) =
      (StreamObj.readFrom src (q + jsOrD d._range.1 0) n e).map (fun r => r.1) := by
  simp only [StreamObj.readFrom, h, if_true]
  exact map_fst_wrap ..

/-!
## Claim theorems
-/

/-- C1: **refuted by the code** (code bug).  For a substream constructed
with an explicit `from` bound the `Substream` constructor leaves
`_position` at its field initializer `0` instead of the range start, so —
over the file "hello" with `substream(2, 4)` — `position` is `-2`
immediately after construction (the claim says `0`), and the first
`read(2)` returns "he" (`[104, 101]`, the bytes at absolute `[0, 2)`)
while `source.readFrom(2, 2)` returns "ll" (`[108, 108]`). -/
theorem c1_substream_initial_position_bug :
    helloSub24.position = -2 ∧
    (helloSub24.read 2 false).map (fun r => r.1) = .ok [104, 101] ∧
    ((StreamObj.file helloFile).readFrom 2 2 false).map (fun r => r.1) = .ok [108, 108] :=
  ⟨by decide, by decide, by decide⟩

/-- C2: **refuted by the code** (code bug).  Closing a `FileStream`
backend (whose `close` does emit `"close"`) closes its direct substream
but not the substream built on that substream, because `Substream.close`
never emits; closing a `MemoryStream` backend closes no substream at all,
because `MemoryStream.close` never calls `super.close()`.  The converse
half of the claim does hold: closing one substream leaves the backend and
the sibling substream open. -/
theorem c2_cascading_close_stops_at_depth_one :
    fileChainWorld.close.backendOpen = false ∧
    fileChainWorld.close.subs = [.node false [.node true []]] ∧
    memChainWorld.close.subs = [.node true []] ∧
    (siblingWorld.closeSub 0).backendOpen = true ∧
    (siblingWorld.closeSub 0).subs = [.node false [], .node true []] :=
  ⟨rfl, rfl, rfl, rfl, rfl⟩

/-- C3: **refuted by the code** (code bug).  After `close()` on a
substream whose source is still open, `isOpen` is `false`, yet `seek`
succeeds (returns `true`), `read` returns data and `write` writes —
none of the `Substream` operations checks its own `_isOpen`, so no
`NotOpen` error is raised. -/
theorem c3_closed_substream_operations_still_succeed :
    (helloSubAll.close).isOpen = false ∧
    ((helloSubAll.close).seek 1).map (fun r => r.1) = .ok true ∧
    ((helloSubAll.close).read 2 false).map (fun r => r.1) = .ok [104, 101] ∧
    ((helloSubAll.close).write [120]).map (fun r => r.1) = .ok 1 :=
  ⟨by decide, by decide, by decide, by decide⟩

/-- C4: **refuted by the code** (code bug).  `MemoryStream.read` advances
`_position` by the *requested* length: on the 5-byte stream "hello" a
single successful `read(10)` returns all 5 bytes but leaves
`position = 10 > length = 5`, violating `0 <= position <= length`. -/
theorem c4_memory_read_breaks_position_invariant :
    helloMem.length = 5 ∧
    (helloMem.read 10 false).map (fun r => (r.1, r.2.position)) =
      .ok ([104, 101, 108, 108, 111], 10) :=
  ⟨by decide, by decide⟩

/-- C5 counterexample: on the open 5-byte `MemoryStream` "hello",
`seek(length)` = `seek(5)` returns `false` (the guard is
`position >= this.length`), where the claim requires it to succeed. -/
theorem c5_memory_seek_to_length_cex :
    helloMem.length = 5 ∧ helloMem.seek 5 = .ok (false, helloMem) :=
  ⟨by decide, by decide⟩

/-- C5 amended: the claimed boundary behaviour (`seek(L)` succeeds,
`seek(L+1)` and `seek(-1)` fail booleanly without mutating) holds for
`FileStream`; `MemoryStream` accepts exactly positions in `[0, L)`, so
`seek(L)` itself fails (without mutating), and `Substream.seek` performs
no bounds check at all — it succeeds at every position whenever the
source can seek. -/
theorem c5_seek_boundary_amended :
    (∀ s : FileStream, s.isOpen = true → s.canSeek = true → 0 ≤ s.length →
      (s.seek s.length).map (fun r => (r.1, r.2.position)) = .ok (true, s.length) ∧
      s.seek (s.length + 1) = .ok (false, s) ∧
      s.seek (-1) = .ok (false, s)) ∧
    (∀ m : MemoryStream, m.isOpen = true →
      m.seek m.length = .ok (false, m) ∧
      m.seek (-1) = .ok (false, m) ∧
      ∀ p : Int, 0 ≤ p → p < m.length →
        (m.seek p).map (fun r => (r.1, r.2.position)) = .ok (true, p)) ∧
    (∀ (d : SubstreamState) (src : StreamObj) (p : Int), src.canSeek = true →
      (StreamObj.sub d src).seek p =
        .ok (true, .sub { d with _position := p + jsOrD d._range.1 0 } src)) := by
  refine ⟨?_, ?_, ?_⟩
  · intro s h1 h2 h3
    have hc1 : ¬ s.length < 0 := by omega
    have hc1' : ¬ s.length > s.length := by omega
    have hc2 : s.length + 1 < 0 ∨ s.length + 1 > s.length := by omega
    have hc3 : (-1 : Int) < 0 ∨ (-1 : Int) > s.length := by omega
    refine ⟨?_, ?_, ?_⟩
    · simp [FileStream.seek, h1, h2, hc1, hc1', FileStream.position, Except.map,
        add_sub_cancel_right]
    · simp [FileStream.seek, h1, h2, hc2]
    · simp [FileStream.seek, h1, h2, hc3]
  · intro m h
    have hc1 : m.length < 0 ∨ m.length ≥ m.length := Or.inr le_rfl
    have hc2 : (-1 : Int) < 0 ∨ (-1 : Int) ≥ m.length := Or.inl (by omega)
    refine ⟨?_, ?_, ?_⟩
    · simp [MemoryStream.seek, h, hc1]
    · simp [MemoryStream.seek, h, hc2]
    · intro p hp1 hp2
      have hc3 : ¬ (p < 0 ∨ p ≥ m.length) := by omega
      simp [MemoryStream.seek, h, hc3, MemoryStream.position, Except.map]
  · intro d src p h
    simp [StreamObj.seek, h]

/-- C5 amended, witness: the three behaviours at `helloFile` (length 5),
`helloMem` (length 5) and a substream over `helloFile` at position `-1`. -/
theorem c5_seek_boundary_amended_witness :
    (helloFile.seek helloFile.length).map (fun r => (r.1, r.2.position)) =
      .ok (true, helloFile.length) ∧
    helloMem.seek helloMem.length = .ok (false, helloMem) ∧
    (StreamObj.sub subD0 (.file helloFile)).seek (-1) =
      .ok (true, .sub { subD0 with _position := -1 + jsOrD subD0._range.1 0 } (.file helloFile)) :=
  ⟨(c5_seek_boundary_amended.1 helloFile (by decide) (by decide) (by decide)).1,
   (c5_seek_boundary_amended.2.1 helloMem (by decide)).1,
   c5_seek_boundary_amended.2.2 subD0 (.file helloFile) (-1) (by decide)⟩

/-- C6: **refuted by the code** (code bug).  The exact-mode guard in
`MemoryStream.read` is inverted (`position + length <= this.length`
instead of `>`): on "hello" at position 0, `read(2, exact)` throws even
though 5 >= 2 bytes are available, while `read(10, exact)` succeeds and
returns only the 5 available bytes.  (`FileStream.read` line 134 has the
intended `>`.) -/
theorem c6_memory_exact_read_condition_inverted :
    helloMem.read 2 true = .error .shortRead ∧
    (helloMem.read 10 true).map (fun r => r.1) = .ok [104, 101, 108, 108, 111] :=
  ⟨by decide, by decide⟩

/-- C7 counterexample: a `FileStream` source sitting at position 3; a
fresh unbounded substream over it reads 2 bytes, after which the source's
own `position` is 2, not 3 — the delegated `readFrom` seeks the source. -/
theorem c7_substream_read_moves_source_cursor_cex :
    (StreamObj.file helloFileAt3).position = 3 ∧
    ((mkSubstream (.file helloFileAt3) none none).read 2 false).map
      (fun r => sourcePositionOf r.2) = .ok (some 2) :=
  ⟨by decide, by decide⟩

/-- C7 amended: a substream `read` *does* move its source's cursor — it
delegates to the source's `readFrom`, whose default is seek-then-read, so
after a (non-exact) substream read the source's `position` equals the
substream's stored absolute offset plus the bytes actually read.  (The
substream still keeps its own absolute bookkeeping and never consults the
source's cursor.) -/
theorem c7_substream_read_sets_source_cursor
    (F : FileStream) (d : SubstreamState) (n : Int)
    (hOpen : F.isOpen = true) (hSeek : F.canSeek = true) (hRead : F.canRead = true)
    (hlo : 0 ≤ d._position) (hhi : d._position ≤ F.length) :
    ((StreamObj.sub d (.file F)).read n false).map (fun r => sourcePositionOf r.2) =
      .ok (some (d._position +
        (filePreadCount (F._file.getD []) n (d._position + F._range.1) : Int))) := by
  have hseekres : F.seek d._position =
      .ok (true, { F with _position := d._position + F._range.1 }) := by
    have hc : ¬ (d._position < 0 ∨ d._position > F.length) := by omega
    simp [FileStream.seek, hOpen, hSeek, hc]
  have hOpen' : FileStream.isOpen { F with _position := d._position + F._range.1 } = true := hOpen
  have hRead' : FileStream.canRead { F with _position := d._position + F._range.1 } = true := hRead
  simp only [StreamObj.read, StreamObj.readFrom, hseekres, if_true]
  simp [FileStream.read, hOpen', hRead', filePread, sourcePositionOf, StreamObj.position,
    FileStream.position, Except.map]
  omega

/-- C7 amended, witness: the fresh substream over `helloFile` reading 2
bytes at stored offset 0 leaves the source cursor at `0 + 2`. -/
theorem c7_substream_read_sets_source_cursor_witness :
    ((StreamObj.sub subD0 (.file helloFile)).read 2 false).map
      (fun r => sourcePositionOf r.2) =
      .ok (some (subD0._position +
        (filePreadCount (helloFile._file.getD []) 2
          (subD0._position + helloFile._range.1) : Int))) :=
  c7_substream_read_sets_source_cursor helloFile subD0 2 (by decide) (by decide) (by decide)
    (by decide) (by decide)

/-- C8 counterexample: on the 100-byte backend (byte `i` = `i`),
`substream(10, 50)` then `substream(5, 20)` does **not** read inside the
absolute range `[15, 30)` as constructed: its very first `read(1)`
returns byte `10` (the parent substream is seeked to its stored cursor
`0`, which translates to absolute 10), and even after `seek(0)` a
`read(20)` spills past absolute 30, returning bytes `[15, 35)`. -/
theorem c8_nested_substream_escapes_range_cex :
    (nested5_20.read 1 false).map (fun r => r.1) = .ok [10] ∧
    ((nested5_20At 0).read 20 false).map (fun r => r.1) =
      .ok ((List.range 100).drop 15 |>.take 20) :=
  ⟨by decide, by decide⟩

/-- C8 amended: the nested ranges do compose to the absolute start `15`
and window length `15 = |[15, 30)|`: the nested view reports `length = 15`,
`seek(p)` always succeeds and stores cursor `p + 5`, and a subsequent
`read(n)` returns exactly the bytes of `backend.readFrom(15 + p, n)` —
but the initial (pre-seek) read starts at absolute 10, and read lengths
are not clamped to the window end 30. -/
theorem c8_nested_substream_composition (p n : Int) (e : Bool) :
    nested5_20.length = 15 ∧
    nested5_20.seek p = .ok (true, nested5_20At p) ∧
    ((nested5_20At p).read n e).map (fun r => r.1) =
      ((StreamObj.file backend100).readFrom (15 + p) n e).map (fun r => r.1) := by
  have hcs : StreamObj.canSeek (StreamObj.file backend100) = true := by decide
  have hcs1 : StreamObj.canSeek sub10_50 = true := by decide
  refine ⟨by decide, ?_, ?_⟩
  · simp only [nested5_20, nested5_20At, mkSubstream, StreamObj.seek, hcs1, if_true,
      jsOrNull, jsOrD]
    norm_num
    decide
  · have h1 : ((nested5_20At p).read n e).map (fun r => r.1) =
        (StreamObj.readFrom sub10_50 (p + 5) n e).map (fun r => r.1) :=
      sub_read_bytes _ sub10_50 n e
    have h2 : (StreamObj.readFrom sub10_50 (p + 5) n e).map (fun r => r.1) =
        (StreamObj.readFrom (.file backend100) (p + 5 + jsOrD (some 10) 0) n e).map
          (fun r => r.1) := by
      unfold sub10_50 mkSubstream
      exact sub_readFrom_bytes _ _ _ n e hcs
    rw [h1, h2, show p + 5 + jsOrD (some 10) 0 = 15 + p by simp [jsOrD]; ring]

/-- C9: **confirmed.**  `Substream.resize(L)` computes the candidate
source-space end `(range[0] || 0) + L`; when the candidate is at most the
source's `length` it stores it as the new end bound and reports `true`,
otherwise it reports `false` and mutates nothing — and in both cases the
source component of the result is the unchanged `src`, so the source's
length is never altered. -/
theorem c9_substream_resize_correct (d : SubstreamState) (src : StreamObj) (L : Int) :
    (jsOrD d._range.1 0 + L ≤ src.length →
      (StreamObj.sub d src).resize L =
        .ok (true, .sub { d with _range := (d._range.1, some (jsOrD d._range.1 0 + L)) } src)) ∧
    (src.length < jsOrD d._range.1 0 + L →
      (StreamObj.sub d src).resize L = .ok (false, .sub d src)) := by
  constructor
  · intro h
    simp [StreamObj.resize, h]
  · intro h
    simp [StreamObj.resize, not_le.mpr h]

/-- C9 witness: over the 5-byte source, the `[2, 4)` substream's
`resize(3)` (candidate end 5 ≤ 5) succeeds and stores end bound 5, while
`resize(4)` (candidate end 6 > 5) fails and mutates nothing. -/
theorem c9_substream_resize_correct_witness :
    (StreamObj.sub subD24 (.mem helloMem)).resize 3 =
      .ok (true, .sub { subD24 with
        _range := (subD24._range.1, some (jsOrD subD24._range.1 0 + 3)) } (.mem helloMem)) ∧
    (StreamObj.sub subD24 (.mem helloMem)).resize 4 = .ok (false, .sub subD24 (.mem helloMem)) :=
  ⟨(c9_substream_resize_correct subD24 (.mem helloMem) 3).1 (by decide),
   (c9_substream_resize_correct subD24 (.mem helloMem) 4).2 (by decide)⟩

/-- C10: **confirmed.**  `MemoryStream.substream` — with or without
explicit bounds — returns a fresh `MemoryStream` constructed with
`readonly: true`, so the view is open but `canWrite` is `false`
(regardless of the parent's writability) and every `write` through it
throws. -/
theorem c10_memory_substream_readonly (m : MemoryStream) (fromPos toPos : Option Int)
    (h : m.isOpen = true) :
    ∃ v, m.substream fromPos toPos = .ok v ∧ v._isReadOnly = true ∧
      v.canWrite = false ∧ v.isOpen = true ∧
      ∀ data, v.write data = .error .cannotWrite := by
  refine ⟨MemoryStream.ofData
    (match fromPos with
     | some f => jsSlice (m._buffer.getD []) f (toPos.getD ((m._buffer.getD []).length : Int))
     | none => m._buffer.getD []) true false, ?_, rfl, rfl, rfl, ?_⟩
  · simp only [MemoryStream.substream, h]
    cases fromPos <;> simp
  · intro data
    simp [MemoryStream.write, MemoryStream.canWrite, MemoryStream.isOpen, MemoryStream.ofData]

/-- C10 witness: `helloMem.substream(1, 3)` is read-only and rejects a
concrete write. -/
theorem c10_memory_substream_readonly_witness :
    ∃ v, helloMem.substream (some 1) (some 3) = .ok v ∧ v._isReadOnly = true ∧
      v.canWrite = false ∧ v.isOpen = true ∧
      ∀ data, v.write data = .error .cannotWrite :=
  c10_memory_substream_readonly helloMem (some 1) (some 3) (by decide)

end IaStream
